import Mathlib

/-
Verification of the go.hue client library (danopia/go.hue).

The embedding models the request-building layer of the library: the Bridge
client with its URI construction and debug logging, the light and group
listing operations, the two conflicting set-state serialization variants
(the typed record with omitempty tags from the bridge/light files, and the
string-sentinel record from the second light file), and the new-light scan
decoding with its unchecked type assertions.

JSON request bodies are modelled as ordered lists of key-value pairs: a
field is present in the serialized body exactly when its key appears in the
list, and carries the paired value. Decoded JSON responses are modelled as
association lists of Json values in textual order.
-/

namespace Hue

/-- Model of a decoded JSON value, as produced by encoding/json into
interface values: null (a nil interface), booleans, integers, rationals
standing in for the float fields, strings, arrays and objects. -/
inductive Json where
  | null : Json
  | bool : Bool → Json
  | num : Int → Json
  | flt : Rat → Json
  | str : String → Json
  | arr : List Json → Json
  | obj : List (String × Json) → Json

/-- Indexing a decoded map: the first binding of the key, none when the key
is absent (a Go map index on a missing key yields the nil interface). -/
def lookupJ : List (String × Json) → String → Option Json
  | [], _ => none
  | (k, v) :: rest, key => if k = key then some v else lookupJ rest key

/-- The Bridge record: device address, access credential and debug flag. -/
structure Bridge where
  IPAddr : String
  Username : String
  debug : Bool
deriving Repr, DecidableEq

/-- NewBridge instantiates a bridge from an address and a username; the
debug flag starts out false. -/
def NewBridge (ipAddr username : String) : Bridge :=
  { IPAddr := ipAddr, Username := username, debug := false }

/-- Debug sets the bridge debug mode on and returns the bridge. -/
def Bridge.Debug (b : Bridge) : Bridge :=
  { b with debug := true }

/-- toURI builds the request URI from the address, the credential and the
resource path. -/
def Bridge.toURI (b : Bridge) (path : String) : String :=
  "http://" ++ b.IPAddr ++ "/api/" ++ b.Username ++ path

/-- An outgoing HTTP request: verb, full URI, and the body as a list of
serialized key-value pairs (none for a body-less request). -/
structure HttpRequest where
  method : String
  uri : String
  body : Option (List (String × Json))

/-- Bridge.get: the log lines emitted and the request dispatched. The debug
flag only selects whether a log line is produced. -/
def Bridge.get (b : Bridge) (path : String) : List String × HttpRequest :=
  let uri := b.toURI path
  (if b.debug then ["GET " ++ uri] else [], { method := "GET", uri := uri, body := none })

/-- Bridge.post: the log lines emitted and the request dispatched. -/
def Bridge.post (b : Bridge) (path : String) (body : Option (List (String × Json))) :
    List String × HttpRequest :=
  let uri := b.toURI path
  (if b.debug then ["POST " ++ uri] else [], { method := "POST", uri := uri, body := body })

/-- Bridge.put: the log lines emitted and the request dispatched. -/
def Bridge.put (b : Bridge) (path : String) (body : Option (List (String × Json))) :
    List String × HttpRequest :=
  let uri := b.toURI path
  (if b.debug then ["PUT " ++ uri] else [], { method := "PUT", uri := uri, body := body })

/-- The Light record: identifier, display name, and the back-reference to
the bridge (none models a nil pointer). -/
structure Light where
  ID : String
  Name : String
  bridge : Option Bridge
deriving Repr, DecidableEq

/-- The Group record from group_list.go: identifier, name, type, class,
member light identifiers, and the bridge back-reference. -/
structure Group where
  ID : String
  Name : String
  GroupType : String
  Class : String
  Lights : List String
  Bridge : Option Bridge
deriving Repr, DecidableEq

/-- GetAllLights after decoding: the response is a mapping from identifier
to decoded light record; each entry yields a fresh Light re-keyed with its
mapping key and holding the bridge reference. -/
def getAllLights (b : Bridge) (results : List (String × Light)) : List Light :=
  results.map fun p => { ID := p.1, Name := p.2.Name, bridge := some b }

/-- GetAllGroups after decoding. The Go loop appends the address of the
range variable (append of a pointer to the variable named group) on every
iteration; under the loop semantics governing this module (a 2014-era
repository with no go.mod, predating the Go 1.22 per-iteration change)
that is a single variable, so all returned pointers alias one cell that
finally holds the last iterated entry, re-keyed with its own mapping key
and the bridge reference. The observable returned collection is therefore
length-many copies of that final entry. -/
def getAllGroups (b : Bridge) (results : List (String × Group)) : List Group :=
  match results.getLast? with
  | none => []
  | some (id, g) =>
      List.replicate results.length { g with ID := id, Bridge := some b }

/-- Outcome of GetNewLights past the decode step: either a normal return of
the new lights and the last-scan string, or a runtime panic from one of the
unchecked type assertions. There is no error constructor because past a
successful decode the function has no error return. -/
inductive NewLightsResult where
  | panicked : NewLightsResult
  | ok : List Light → String → NewLightsResult
deriving Repr, DecidableEq

/-- The GetNewLights loop body: every entry other than the reserved
lastscan key is asserted to be an object whose name key holds a string
(either assertion failing is a panic, modelled as none), and becomes a
Light with a nil bridge pointer. -/
def collectNewLights : List (String × Json) → Option (List Light)
  | [] => some []
  | (id, params) :: rest =>
      if id = "lastscan" then collectNewLights rest
      else
        match params with
        | Json.obj fields =>
            match lookupJ fields "name" with
            | some (Json.str name) =>
                (collectNewLights rest).map
                  (fun ls => { ID := id, Name := name, bridge := none } :: ls)
            | _ => none
        | _ => none

/-- GetNewLights past the decode step: the lastscan entry is read with an
unchecked string assertion first (a missing or non-string entry panics),
then the remaining entries are separated out and turned into lights. -/
def getNewLights (decoded : List (String × Json)) : NewLightsResult :=
  match lookupJ decoded "lastscan" with
  | some (Json.str lastScan) =>
      match collectNewLights decoded with
      | some lights => NewLightsResult.ok lights lastScan
      | none => NewLightsResult.panicked
  | _ => NewLightsResult.panicked

/-- FindLightByID: linear scan of the light collection returned by
GetAllLights; a miss yields an error naming the queried identifier. -/
def findLightByID (lights : List Light) (id : String) : Except String Light :=
  match lights.find? (fun l => l.ID == id) with
  | some l => Except.ok l
  | none => Except.error ("unable to find light with id, " ++ id)

/-- FindLightByName: linear scan of the light collection returned by
GetAllLights; a miss yields an error naming the queried name. -/
def findLightByName (lights : List Light) (name : String) : Except String Light :=
  match lights.find? (fun l => l.Name == name) with
  | some l => Except.ok l
  | none => Except.error ("unable to find light with name, " ++ name)

/-- The typed partial-update record for a light, from the second light
file: every field carries an omitempty tag, and an unset field holds the
zero value of its type (the record defaults below). Brightness, hue,
saturation and color temperature are machine integers whose values in this
development never overflow, so they are modelled as Nat; the float pair is
modelled as rationals. -/
structure SetLightState where
  On : Bool := false
  Bri : Nat := 0
  Hue : Nat := 0
  Sat : Nat := 0
  Xy : List Rat := []
  Ct : Nat := 0
  Alert : String := ""
  Effect : String := ""
  TransitionTime : Nat := 0
  Scene : String := ""
deriving Repr, DecidableEq

/-- Serialization of the typed light record by the json encoder: fields in
declaration order, and a field tagged omitempty is skipped exactly when it
holds the zero value of its type (false, 0, empty list, empty string). -/
def marshalSetLightState (s : SetLightState) : List (String × Json) :=
  (if s.On = false then [] else [("on", Json.bool s.On)]) ++
  (if s.Bri = 0 then [] else [("bri", Json.num (s.Bri : Int))]) ++
  (if s.Hue = 0 then [] else [("hue", Json.num (s.Hue : Int))]) ++
  (if s.Sat = 0 then [] else [("sat", Json.num (s.Sat : Int))]) ++
  (if s.Xy = [] then [] else [("xy", Json.arr (s.Xy.map Json.flt))]) ++
  (if s.Ct = 0 then [] else [("ct", Json.num (s.Ct : Int))]) ++
  (if s.Alert = "" then [] else [("alert", Json.str s.Alert)]) ++
  (if s.Effect = "" then [] else [("effect", Json.str s.Effect)]) ++
  (if s.TransitionTime = 0 then [] else [("transitiontime", Json.num (s.TransitionTime : Int))]) ++
  (if s.Scene = "" then [] else [("scene", Json.str s.Scene)])

/-- The typed partial-update record for a group, from the group file: the
same fields and omitempty tags as the typed light record. -/
structure GroupState where
  On : Bool := false
  Bri : Nat := 0
  Hue : Nat := 0
  Sat : Nat := 0
  Xy : List Rat := []
  Ct : Nat := 0
  Alert : String := ""
  Effect : String := ""
  TransitionTime : Nat := 0
  Scene : String := ""
deriving Repr, DecidableEq

/-- Serialization of the typed group record, with the same omitempty
skipping as the light record. -/
def marshalGroupState (s : GroupState) : List (String × Json) :=
  (if s.On = false then [] else [("on", Json.bool s.On)]) ++
  (if s.Bri = 0 then [] else [("bri", Json.num (s.Bri : Int))]) ++
  (if s.Hue = 0 then [] else [("hue", Json.num (s.Hue : Int))]) ++
  (if s.Sat = 0 then [] else [("sat", Json.num (s.Sat : Int))]) ++
  (if s.Xy = [] then [] else [("xy", Json.arr (s.Xy.map Json.flt))]) ++
  (if s.Ct = 0 then [] else [("ct", Json.num (s.Ct : Int))]) ++
  (if s.Alert = "" then [] else [("alert", Json.str s.Alert)]) ++
  (if s.Effect = "" then [] else [("effect", Json.str s.Effect)]) ++
  (if s.TransitionTime = 0 then [] else [("transitiontime", Json.num (s.TransitionTime : Int))]) ++
  (if s.Scene = "" then [] else [("scene", Json.str s.Scene)])

/-- The resource path a light set-state call targets. -/
def Light.setStatePath (l : Light) : String :=
  "/lights/" ++ l.ID ++ "/state"

/-- SetState for the typed variant: the request it issues, as target path
and serialized body. -/
def Light.setStateRequest (l : Light) (state : SetLightState) : String × List (String × Json) :=
  (l.setStatePath, marshalSetLightState state)

/-- The record the typed On convenience method builds: on set to true and
effect set to none. -/
def lightOnState : SetLightState :=
  { On := true, Effect := "none" }

/-- On for the typed variant: builds the on record and delegates to
SetState. -/
def Light.onRequest (l : Light) : String × List (String × Json) :=
  l.setStateRequest lightOnState

/-- The record the typed Off convenience method builds: only on, set to
false. -/
def lightOffState : SetLightState :=
  { On := false }

/-- Off for the typed variant: builds the off record and delegates to
SetState. -/
def Light.offRequest (l : Light) : String × List (String × Json) :=
  l.setStateRequest lightOffState

/-- strconv.ParseBool: the accepted spellings, none on anything else (Go
returns the zero value false together with the discarded error there). -/
def parseBool (s : String) : Option Bool :=
  if s = "1" ∨ s = "t" ∨ s = "T" ∨ s = "TRUE" ∨ s = "true" ∨ s = "True" then some true
  else if s = "0" ∨ s = "f" ∨ s = "F" ∨ s = "FALSE" ∨ s = "false" ∨ s = "False" then some false
  else none

/-- Value of a decimal digit character, none on a non-digit. -/
def digitVal (c : Char) : Option Nat :=
  if c.isDigit then some (c.toNat - Char.toNat '0') else none

/-- Accumulate decimal digits; none as soon as a non-digit appears. -/
def parseDigitsAux : List Char → Nat → Option Nat
  | [], acc => some acc
  | c :: cs, acc =>
      match digitVal c with
      | some d => parseDigitsAux cs (acc * 10 + d)
      | none => none

/-- A non-empty all-digit run, none otherwise. -/
def parseDigits : List Char → Option Nat
  | [] => none
  | cs => parseDigitsAux cs 0

/-- Largest value of the 64-bit int type strconv.Atoi targets. -/
def maxInt64 : Int := 9223372036854775807

/-- Smallest value of the 64-bit int type strconv.Atoi targets. -/
def minInt64 : Int := -9223372036854775808

/-- Outcome of strconv.Atoi: a clean parse, a syntax error (Go pairs it
with the zero value 0), or a range error (Go pairs it with the value
clamped to the nearest 64-bit bound). -/
inductive AtoiResult where
  | ok : Int → AtoiResult
  | syntaxError : AtoiResult
  | rangeError : Int → AtoiResult
deriving Repr, DecidableEq

/-- The value component of the pair strconv.Atoi returns: the parsed value
on success, 0 alongside a syntax error, and the clamped bound alongside a
range error. -/
def AtoiResult.value : AtoiResult → Int
  | AtoiResult.ok n => n
  | AtoiResult.syntaxError => 0
  | AtoiResult.rangeError c => c

/-- The digit run of strconv.Atoi after the optional sign: a non-digit or
empty run is a syntax error; a parsed magnitude beyond the 64-bit bound of
the requested sign is a range error carrying the clamped bound. -/
def atoiOfDigits (neg : Bool) (cs : List Char) : AtoiResult :=
  match parseDigits cs with
  | none => AtoiResult.syntaxError
  | some n =>
      if neg then
        if -(n : Int) < minInt64 then AtoiResult.rangeError minInt64
        else AtoiResult.ok (-(n : Int))
      else
        if (n : Int) > maxInt64 then AtoiResult.rangeError maxInt64
        else AtoiResult.ok (n : Int)

/-- strconv.Atoi: optional sign followed by decimal digits, targeting the
64-bit int type. A malformed string is a syntax error whose paired value
is 0; a well-formed string beyond the 64-bit range is a range error whose
paired value is the clamped bound. -/
def atoi (s : String) : AtoiResult :=
  match s.data with
  | [] => AtoiResult.syntaxError
  | '+' :: rest => atoiOfDigits false rest
  | '-' :: rest => atoiOfDigits true rest
  | cs => atoiOfDigits false cs

/-- The string-sentinel partial-update record from the first light file:
every scalar field is a string whose empty value means unset, and the
float pair is a slice whose nil value means unset. -/
structure SentinelSetLightState where
  On : String := ""
  Bri : String := ""
  Hue : String := ""
  Sat : String := ""
  Xy : List Rat := []
  Ct : String := ""
  Alert : String := ""
  Effect : String := ""
  TransitionTime : String := ""
deriving Repr, DecidableEq

/-- The params map the sentinel SetState builds before marshalling: each
non-empty field is parsed with its error discarded, so the value strconv
paired with the error is transmitted as-is (0 or false on a syntax error,
the clamped bound on an integer range error). The pairs are listed in the
order the code populates the map; the body is determined by the set of
pairs. -/
def sentinelSetStateParams (s : SentinelSetLightState) : List (String × Json) :=
  (if s.On = "" then [] else [("on", Json.bool ((parseBool s.On).getD false))]) ++
  (if s.Bri = "" then [] else [("bri", Json.num (atoi s.Bri).value)]) ++
  (if s.Hue = "" then [] else [("hue", Json.num (atoi s.Hue).value)]) ++
  (if s.Sat = "" then [] else [("sat", Json.num (atoi s.Sat).value)]) ++
  (if s.Xy = [] then [] else [("xy", Json.arr (s.Xy.map Json.flt))]) ++
  (if s.Ct = "" then [] else [("ct", Json.num (atoi s.Ct).value)]) ++
  (if s.Alert = "" then [] else [("alert", Json.str s.Alert)]) ++
  (if s.Effect = "" then [] else [("effect", Json.str s.Effect)]) ++
  (if s.TransitionTime = "" then [] else [("transitiontime", Json.num (atoi s.TransitionTime).value)])

/-- SetState for the sentinel variant: the request it issues, as target
path and serialized body. -/
def Light.setStateRequest' (l : Light) (state : SentinelSetLightState) :
    String × List (String × Json) :=
  (l.setStatePath, sentinelSetStateParams state)

/-- The record the sentinel On convenience method builds. -/
def sentinelOnState : SentinelSetLightState :=
  { On := "true", Effect := "none" }

/-- On for the sentinel variant: builds the on record and delegates to
SetState. -/
def Light.onRequest' (l : Light) : String × List (String × Json) :=
  l.setStateRequest' sentinelOnState

/-- The record the sentinel Off convenience method builds. -/
def sentinelOffState : SentinelSetLightState :=
  { On := "false" }

/-- Off for the sentinel variant: builds the off record and delegates to
SetState. -/
def Light.offRequest' (l : Light) : String × List (String × Json) :=
  l.setStateRequest' sentinelOffState

/-- GetAllLights preserves the mapping faithfully: a decoded mapping with N
entries yields N lights, each keyed by its mapping key and holding the
bridge reference. -/
theorem getAllLightsSpec (b : Bridge) (results : List (String × Light)) :
    (getAllLights b results).length = results.length ∧
    (getAllLights b results).map Light.ID = results.map Prod.fst ∧
    ∀ l ∈ getAllLights b results, l.bridge = some b := by
  refine ⟨by simp [getAllLights], by simp [getAllLights], ?_⟩
  intro l hl
  simp only [getAllLights, List.mem_map] at hl
  obtain ⟨p, hp, rfl⟩ := hl
  rfl

/-- C1: a partial-update record whose caller explicitly set brightness 0
serializes without a bri key, in both the typed light record and the group
record: omitempty drops every zero-valued field, so brightness 0 (and on
false) can never appear in the body, against the claim that every
explicitly set field is transmitted with its exact value. -/
theorem typedStateOmitsBrightnessZero :
    marshalGroupState { On := true, Bri := 0 } = [("on", Json.bool true)] ∧
    marshalSetLightState { On := true, Bri := 0 } = [("on", Json.bool true)] :=
  ⟨rfl, rfl⟩

/-- C2: the typed Off convenience method serializes to an empty body, so
the on false field the claim requires is never transmitted (omission means
leave unchanged, making this Off a no-op); the sentinel variant of Off
does transmit on false. -/
theorem offRequestBodyByVariant (l : Light) :
    (l.offRequest).2 = [] ∧
    (l.offRequest').2 = [("on", Json.bool false)] :=
  ⟨rfl, rfl⟩

/-- C3: a decoded groups mapping containing the key 0 yields a returned
collection containing a group whose identifier is 0: the loop copies every
entry without the exclusion the claim (and the function doc comment)
states. -/
theorem getAllGroupsKeepsGroupZero :
    (getAllGroups { IPAddr := "10.0.0.3", Username := "key0", debug := true }
        [("0", { ID := "", Name := "AllLights", GroupType := "LightGroup", Class := "",
                 Lights := ["1", "2"], Bridge := none })]).map Group.ID = ["0"] := by
  decide

/-- C4: the On convenience method issues a request identical to calling
SetState with a record whose only populated fields are on true and effect
none: same target path and identical serialized body, in the typed variant
and in the sentinel variant; the shared body is on true followed by effect
none. -/
theorem onEquivalentToSetState (l : Light) :
    l.onRequest = l.setStateRequest { On := true, Effect := "none" } ∧
    l.onRequest' = l.setStateRequest' { On := "true", Effect := "none" } ∧
    (l.onRequest).1 = l.setStatePath ∧
    (l.onRequest).2 = [("on", Json.bool true), ("effect", Json.str "none")] ∧
    (l.onRequest').2 = [("on", Json.bool true), ("effect", Json.str "none")] :=
  ⟨rfl, rfl, rfl, rfl, rfl⟩

/-- C5: on a two-entry groups mapping, every group in the returned
collection carries the identifier and name of the last iterated entry,
because each iteration appended the address of the single range variable;
the claim that each object carries its own mapping key fails for
GetAllGroups (GetAllLights, which builds a fresh value per iteration,
satisfies it). -/
theorem getAllGroupsAliasesLoopVariable :
    (getAllGroups { IPAddr := "10.0.0.2", Username := "key5", debug := false }
        [("1", { ID := "", Name := "Desk", GroupType := "LightGroup", Class := "",
                 Lights := ["3"], Bridge := none }),
         ("2", { ID := "", Name := "Porch", GroupType := "LightGroup", Class := "",
                 Lights := ["4"], Bridge := none })]).map (fun g => (g.ID, g.Name)) =
      [("2", "Porch"), ("2", "Porch")] := by
  decide

/-- C6: on the payload with one light entry and the reserved lastscan
entry, GetNewLights separates the reserved entry and returns exactly one
light carrying the mapping key as identifier and the decoded name,
together with the last-scan string, with no panic and no error. -/
theorem getNewLightsSeparatesLastScan :
    getNewLights [("1", Json.obj [("name", Json.str "Lamp")]),
        ("lastscan", Json.str "2014-01-01T00:00:00")] =
      NewLightsResult.ok [{ ID := "1", Name := "Lamp", bridge := none }]
        "2014-01-01T00:00:00" :=
  rfl

/-- C7: on a light collection returned by GetAllLights with no matching
light, FindLightByName and FindLightByID return no light and an error
whose message is the not-found text followed by the queried key verbatim. -/
theorem findLightNotFoundError (b : Bridge) (results : List (String × Light))
    (name id : String)
    (hname : ∀ l ∈ getAllLights b results, l.Name ≠ name)
    (hid : ∀ l ∈ getAllLights b results, l.ID ≠ id) :
    findLightByName (getAllLights b results) name =
      Except.error ("unable to find light with name, " ++ name) ∧
    findLightByID (getAllLights b results) id =
      Except.error ("unable to find light with id, " ++ id) := by
  have hn : (getAllLights b results).find? (fun l => l.Name == name) = none := by
    rw [List.find?_eq_none]
    intro x hx
    simpa using hname x hx
  have hi : (getAllLights b results).find? (fun l => l.ID == id) = none := by
    rw [List.find?_eq_none]
    intro x hx
    simpa using hid x hx
  exact ⟨by simp [findLightByName, hn], by simp [findLightByID, hi]⟩

/-- C7 witness: on the empty collection, the lookup for the name Missing
and the lookup for the identifier 77 both fail with the not-found message
carrying the queried key. -/
theorem findLightNotFoundErrorWitness :
    findLightByName (getAllLights (NewBridge "192.168.1.5" "devuser") []) "Missing" =
      Except.error ("unable to find light with name, " ++ "Missing") ∧
    findLightByID (getAllLights (NewBridge "192.168.1.5" "devuser") []) "77" =
      Except.error ("unable to find light with id, " ++ "77") :=
  findLightNotFoundError (NewBridge "192.168.1.5" "devuser") [] "Missing" "77"
    (by simp [getAllLights]) (by simp [getAllLights])

/-- C8: enabling debug mode changes nothing but logging: for every bridge,
path and body, the request dispatched by get, post and put is identical
with and without the debug flag, and the URI has the documented shape
built from the address, the credential and the path. -/
theorem debugOnlyAddsLogging (b : Bridge) (path : String)
    (body : Option (List (String × Json))) :
    (b.Debug.get path).2 = (b.get path).2 ∧
    (b.Debug.post path body).2 = (b.post path body).2 ∧
    (b.Debug.put path body).2 = (b.put path body).2 ∧
    (b.get path).2 = { method := "GET"
                       uri := "http://" ++ b.IPAddr ++ "/api/" ++ b.Username ++ path
                       body := none } ∧
    (b.post path body).2 = { method := "POST"
                             uri := "http://" ++ b.IPAddr ++ "/api/" ++ b.Username ++ path
                             body := body } ∧
    (b.put path body).2 = { method := "PUT"
                            uri := "http://" ++ b.IPAddr ++ "/api/" ++ b.Username ++ path
                            body := body } :=
  ⟨rfl, rfl, rfl, rfl, rfl, rfl⟩

/-- C9: whenever the decoded mapping has no lastscan key holding a string,
GetNewLights panics on the unchecked string assertion instead of returning
through its error result; past a successful decode the function has no
error return at all. -/
theorem getNewLightsPanicsWithoutLastScan (decoded : List (String × Json))
    (h : ∀ s : String, lookupJ decoded "lastscan" ≠ some (Json.str s)) :
    getNewLights decoded = NewLightsResult.panicked := by
  unfold getNewLights
  cases hl : lookupJ decoded "lastscan" with
  | none => rfl
  | some j =>
      cases j with
      | str s => exact absurd hl (h s)
      | null => rfl
      | bool b => rfl
      | num n => rfl
      | flt q => rfl
      | arr xs => rfl
      | obj fs => rfl

/-- C9 witness: a decoded payload with one well-formed light entry but no
lastscan key satisfies the hypothesis and makes GetNewLights panic. -/
theorem getNewLightsPanicsWithoutLastScanWitness :
    lookupJ [("1", Json.obj [("name", Json.str "Lamp")])] "lastscan" = none ∧
    getNewLights [("1", Json.obj [("name", Json.str "Lamp")])] =
      NewLightsResult.panicked :=
  ⟨rfl, getNewLightsPanicsWithoutLastScan [("1", Json.obj [("name", Json.str "Lamp")])]
    (fun s hs => by simp [lookupJ] at hs)⟩

/-- C10 counterexample: a non-empty brightness string of twenty digits
fails to parse as the 64-bit target type (strconv reports a range error),
yet the transmitted bri value is the clamped 64-bit maximum, not the zero
value the claim states: the body carries bri 9223372036854775807 and no
bri 0. -/
theorem sentinelRangeErrorSendsClampedValue :
    atoi "99999999999999999999" = AtoiResult.rangeError 9223372036854775807 ∧
    sentinelSetStateParams { Bri := "99999999999999999999" } =
      [("bri", Json.num 9223372036854775807)] ∧
    ("bri", Json.num 0) ∉
      sentinelSetStateParams { Bri := "99999999999999999999" } := by
  refine ⟨by decide, rfl, ?_⟩
  intro hmem
  rw [show sentinelSetStateParams { Bri := "99999999999999999999" } =
      [("bri", Json.num 9223372036854775807)] from rfl] at hmem
  simp at hmem

/-- C10 amended: in the sentinel SetState, a non-empty field whose string
fails to parse never causes an error; the value strconv paired with the
discarded error is transmitted for that field: the zero value (0 or
false) on a syntax failure, and the clamped 64-bit bound on an integer
range failure. -/
theorem sentinelParseFailureSendsStrconvValue (s : SentinelSetLightState) :
    (s.Bri ≠ "" → atoi s.Bri = AtoiResult.syntaxError →
      ("bri", Json.num 0) ∈ sentinelSetStateParams s) ∧
    (∀ c : Int, s.Bri ≠ "" → atoi s.Bri = AtoiResult.rangeError c →
      ("bri", Json.num c) ∈ sentinelSetStateParams s) ∧
    (s.On ≠ "" → parseBool s.On = none →
      ("on", Json.bool false) ∈ sentinelSetStateParams s) := by
  refine ⟨?_, ?_, ?_⟩
  · intro hb hab
    have hmem : ("bri", Json.num 0) ∈
        (if s.Bri = "" then ([] : List (String × Json))
         else [("bri", Json.num (atoi s.Bri).value)]) := by
      rw [if_neg hb, hab]
      simp [AtoiResult.value]
    unfold sentinelSetStateParams
    simp only [List.mem_append]
    tauto
  · intro c hb hab
    have hmem : ("bri", Json.num c) ∈
        (if s.Bri = "" then ([] : List (String × Json))
         else [("bri", Json.num (atoi s.Bri).value)]) := by
      rw [if_neg hb, hab]
      simp [AtoiResult.value]
    unfold sentinelSetStateParams
    simp only [List.mem_append]
    tauto
  · intro ho hpo
    have hmem : ("on", Json.bool false) ∈
        (if s.On = "" then ([] : List (String × Json))
         else [("on", Json.bool ((parseBool s.On).getD false))]) := by
      rw [if_neg ho, hpo]
      simp
    unfold sentinelSetStateParams
    simp only [List.mem_append]
    tauto

/-- C10 witness: the record with on maybe and brightness abc satisfies the
syntax-failure hypotheses and its body carries bri 0 and on false, and the
record with a twenty-digit brightness satisfies the range-failure
hypothesis and its body carries the clamped bri. -/
theorem sentinelParseFailureSendsStrconvValueWitness :
    ("bri", Json.num 0) ∈
      sentinelSetStateParams { On := "maybe", Bri := "abc" } ∧
    ("on", Json.bool false) ∈
      sentinelSetStateParams { On := "maybe", Bri := "abc" } ∧
    ("bri", Json.num 9223372036854775807) ∈
      sentinelSetStateParams { Bri := "99999999999999999999" } :=
  ⟨(sentinelParseFailureSendsStrconvValue { On := "maybe", Bri := "abc" }).1
      (by decide) (by decide),
   (sentinelParseFailureSendsStrconvValue { On := "maybe", Bri := "abc" }).2.2
      (by decide) (by decide),
   (sentinelParseFailureSendsStrconvValue { Bri := "99999999999999999999" }).2.1
      9223372036854775807 (by decide) (by decide)⟩

end Hue
